import Mathlib

/-!
Verification of the `pi_control_hub_driver_api` package (with its historical
flat layout in `__init__.py` and the `berry_control_hub_driver_api` variant of
`device_command.py`).  Python classes are embedded as Lean structures; Python
properties become accessor functions; raised exceptions become an explicit
error type; the process-wide class attribute `DeviceDriverDescriptor._config_path`
becomes explicit state passing.
-/

namespace PiControlHub

/-- Errors the embedded Python fragments can raise: `TypeError` raised by the
interpreter itself, and the package's `CommandNotFoundException`
(a subclass of `DeviceDriverException`, which stores only a message). -/
inductive PyError where
  | typeError (message : String)
  | commandNotFound (message : String)
  deriving DecidableEq, Repr

/-- Embeds `DeviceCommand` (`src/berry_control_hub_driver_api/device_command.py`
and the identical class in `src/pi_control_hub_driver_api/__init__.py`):
`__init__(self, cmd_id, title, icon)` stores `_id`, `_title`, `_icon`.
The `icon: bytes` payload is a sequence of bytes, embedded as `List Nat`.
The abstract `execute` method has no behaviour in this repository. -/
structure DeviceCommand where
  _id : Int
  _title : String
  _icon : List Nat
  deriving DecidableEq, BEq, Repr, Inhabited

/-- Embeds the read-only property `DeviceCommand.id`: `return self._id`. -/
def DeviceCommand.id (c : DeviceCommand) : Int := c._id

/-- Embeds the read-only property `DeviceCommand.title`: `return self._title`. -/
def DeviceCommand.title (c : DeviceCommand) : String := c._title

/-- Embeds the read-only property `DeviceCommand.icon`: `return self._icon`. -/
def DeviceCommand.icon (c : DeviceCommand) : List Nat := c._icon

/-- Embeds `DeviceInfo` (`src/pi_control_hub_driver_api/device_info.py` and
`__init__.py`): `__init__(self, name, device_id)` stores `_name` and `_id`. -/
structure DeviceInfo where
  _name : String
  _id : String
  deriving DecidableEq, Repr

/-- Embeds the read-only property `DeviceInfo.name`: `return self._name`. -/
def DeviceInfo.name (i : DeviceInfo) : String := i._name

/-- Embeds the read-only property `DeviceInfo.device_id`: `return self._id`. -/
def DeviceInfo.device_id (i : DeviceInfo) : String := i._id

/-- Embeds the abstract class `DeviceDriver`
(`src/pi_control_hub_driver_api/device_driver.py` and `__init__.py`).
`__init__(self, device_info)` stores `_device_info`; the abstract members
`get_commands`, `remote_layout_size`, `remote_layout` and `is_device_ready`
have no behaviour in this repository and are modelled as data supplied by the
concrete subclass.  The abstract `execute` performs external device I/O and is
outside the embedded fragment. -/
structure DeviceDriver where
  _device_info : DeviceInfo
  get_commands : List DeviceCommand
  remote_layout_size : Int × Int
  remote_layout : List (List Int)
  is_device_ready : Bool
  deriving Repr

/-- Embeds the property `DeviceDriver.name`: `return self._device_info.name`. -/
def DeviceDriver.name (d : DeviceDriver) : String := d._device_info.name

/-- Embeds the property `DeviceDriver.device_id`:
`return self._device_info.device_id`. -/
def DeviceDriver.device_id (d : DeviceDriver) : String := d._device_info.device_id

/-- Embeds `CommandNotFoundException.__init__` from the flat
`src/pi_control_hub_driver_api/__init__.py` (lines 336-339), whose signature
`(device_driver_name: str, command_id: int)` matches the call site in
`get_command`: the stored message is
`f"The device '{device_driver_name}' has no command with id '{command_id}'"`. -/
def CommandNotFoundException_message (device_driver_name : String)
    (command_id : Int) : String :=
  "The device '" ++ device_driver_name ++ "' has no command with id '"
    ++ toString command_id ++ "'"

/-- Embeds a Python call `xs.count(arg)` on a built-in list of commands.
Python's `list.count` takes exactly one positional argument; a call with no
argument (`arg = none`) raises
`TypeError: count() takes exactly one argument (0 given)`. -/
def list_count (xs : List DeviceCommand) (arg : Option DeviceCommand) :
    Except PyError Nat :=
  match arg with
  | none => .error (.typeError "count() takes exactly one argument (0 given)")
  | some a => .ok (xs.count a)

/-- Embeds `DeviceDriver.get_command`
(`src/pi_control_hub_driver_api/device_driver.py` lines 56-77, identical body
in `__init__.py` lines 125-146):

```
result = list(filter(lambda c: c.id == cmd_id, self.get_commands()))
if result.count() > 0:
    return result[0]
raise CommandNotFoundException(self.name, cmd_id)
```

`result.count()` is called with no argument, so `list_count result none`
raises `TypeError` before the comparison with `0` is evaluated; both the
return and the `CommandNotFoundException` raise are unreachable.  (In the
split-module layout the raise would additionally pass the string `self.name`
where `exceptions.py`'s `CommandNotFoundException` expects a `DeviceDriver`.)
`result[0]`, guarded by the emptiness test, is embedded as `headD default`. -/
def DeviceDriver.get_command (d : DeviceDriver) (cmd_id : Int) :
    Except PyError DeviceCommand := do
  let result := d.get_commands.filter (fun c => c.id == cmd_id)
  let n ← list_count result none
  if n > 0 then
    return result.headD default
  .error (.commandNotFound (CommandNotFoundException_message d.name cmd_id))

/-- Embeds the `AuthenticationMethod` enum
(`src/pi_control_hub_driver_api/device_driver_descriptor.py` lines 29-42 and
`__init__.py`): `NONE = 0`, `PIN = 1`, `PASSWORD = 2`, `USER_AND_PASSWORD = 3`. -/
inductive AuthenticationMethod where
  | NONE
  | PIN
  | PASSWORD
  | USER_AND_PASSWORD
  deriving DecidableEq, Repr

/-- Embeds the abstract class `DeviceDriverDescriptor`
(`src/pi_control_hub_driver_api/device_driver_descriptor.py` and
`__init__.py`).  `__init__(self, driver_id, display_name, description)` stores
`_driver_id` (a UUID, embedded as its string form), `_display_name` and
`_description`; the abstract members `get_devices`, `authentication_method`
and `requires_pairing` have no behaviour in this repository and are modelled
as data supplied by the concrete subclass. -/
structure DeviceDriverDescriptor where
  _driver_id : String
  _display_name : String
  _description : String
  get_devices : List DeviceInfo
  authentication_method : AuthenticationMethod
  requires_pairing : Bool
  deriving Repr

/-- Embeds the derived property `DeviceDriverDescriptor.requires_authentication`
(`device_driver_descriptor.py` lines 80-83, `__init__.py` lines 259-262):
`return self.authentication_method != AuthenticationMethod.NONE`. -/
def DeviceDriverDescriptor.requires_authentication
    (d : DeviceDriverDescriptor) : Bool :=
  d.authentication_method != AuthenticationMethod.NONE

/-- Embeds the class attribute `DeviceDriverDescriptor._config_path = None`
(`__init__.py` line 217): the initial value of the process-wide config path
before any `set_config_path` call. -/
def initial_config_path : Option String := none

/-- Embeds the static method `DeviceDriverDescriptor.set_config_path`
(`__init__.py` lines 219-223):
`DeviceDriverDescriptor._config_path = config_path`.  The class-level
attribute is the explicit state `st`; the method is static, so no descriptor
instance takes part. -/
def set_config_path (config_path : String) (_st : Option String) :
    Option String :=
  some config_path

/-- Embeds the static method `DeviceDriverDescriptor.get_config_path`
(`__init__.py` lines 225-228): `return DeviceDriverDescriptor._config_path`. -/
def get_config_path (st : Option String) : Option String := st

/-- Modelled from the spec: `start_pairing` and `finalize_pairing` are abstract
methods of `DeviceDriverDescriptor` with no implementation in this repository;
the spec describes an implicit `PairingSession` store tracked by the
descriptor, keyed by the `pairing_request` token produced by `start_pairing`
and consumed exactly once by `finalize_pairing`.  `pending` holds outstanding
tokens, `finalized` the consumed ones, `counter` feeds fresh token allocation,
`device_provides_pin` is the device-side flag reported by `start_pairing`, and
`credentials_ok` is the driver-specific credential check applied during
finalization. -/
structure PairingState where
  pending : List String
  finalized : List String
  counter : Nat
  device_provides_pin : Bool
  credentials_ok : String → Bool

/-- Modelled from the spec: `start_pairing(device_info, remote_name)` returns a
tuple of a freshly allocated pairing request token and the
`device_provides_pin` flag, and records the token as outstanding. -/
def start_pairing (st : PairingState) (_device_info : DeviceInfo)
    (_remote_name : String) : (String × Bool) × PairingState :=
  let tok := "pairing-request-" ++ toString st.counter
  ((tok, st.device_provides_pin),
   { st with pending := tok :: st.pending, counter := st.counter + 1 })

/-- Modelled from the spec: `finalize_pairing(pairing_request, credentials,
device_provides_pin)` succeeds exactly when the token is outstanding and the
credentials pass the driver's check; on success the token is consumed (removed
from `pending`, recorded in `finalized`), so the call must fail if the token
is unknown or already finalized. -/
def finalize_pairing (st : PairingState) (pairing_request : String)
    (credentials : String) (_device_provides_pin : Bool) :
    Bool × PairingState :=
  if st.pending.contains pairing_request && st.credentials_ok credentials then
    (true,
     { st with
        pending := st.pending.filter (fun t => t != pairing_request)
        finalized := pairing_request :: st.finalized })
  else
    (false, st)

/-- Embeds `DeviceDriverException`
(`src/pi_control_hub_driver_api/exceptions.py` lines 21-31, `__init__.py`
lines 318-328): `__init__(self, message, cause=None)` stores `_message` and
`_cause`; `__str__` returns `self._message`.  The wrapped cause is an
arbitrary Python exception, embedded with a type parameter. -/
structure DeviceDriverException (ε : Type) where
  _message : String
  _cause : Option ε

/-- Embeds `DeviceDriverException.__str__`: `return self._message`. -/
def DeviceDriverException.__str__ {ε : Type} (e : DeviceDriverException ε) :
    String := e._message

/-- Embeds `DeviceCommandException.__init__` from
`src/pi_control_hub_driver_api/exceptions.py` (lines 39-46), whose second
parameter is the `DeviceDriver` itself (default `None`): the message stored in
the underlying `DeviceDriverException`.  With a driver it is
`f"Error while executing the command '{command.title}' (id = {command.id})
for device '{device_driver.name}' (id = {device_driver.device_id})."`;
without, everything after the command id is dropped.  Python truthiness of
`if device_driver:`: `None` is falsy, any driver object truthy. -/
def DeviceCommandException_message (command : DeviceCommand)
    (device_driver : Option DeviceDriver) : String :=
  match device_driver with
  | some d =>
      "Error while executing the command '" ++ command.title ++ "' (id = "
        ++ toString command.id ++ ") for device '" ++ d.name ++ "' (id = "
        ++ d.device_id ++ ")."
  | none =>
      "Error while executing the command '" ++ command.title ++ "' (id = "
        ++ toString command.id ++ ")."

/-- Embeds `DeviceCommandException.__init__` from the flat
`src/pi_control_hub_driver_api/__init__.py` (lines 341-348), whose second
parameter is only the driver name (`device_driver_name: str = None`): the
message mentions the driver name but never a driver id, which this variant
does not receive.  Python truthiness of `if device_driver_name:`: both `None`
and the empty string select the short message. -/
def DeviceCommandException_message_flat (command : DeviceCommand)
    (device_driver_name : Option String) : String :=
  match device_driver_name with
  | some n =>
      if n != "" then
        "Error while executing the command '" ++ command.title ++ "' (id = "
          ++ toString command.id ++ ") for device '" ++ n ++ "'."
      else
        "Error while executing the command '" ++ command.title ++ "' (id = "
          ++ toString command.id ++ ")."
  | none =>
      "Error while executing the command '" ++ command.title ++ "' (id = "
        ++ toString command.id ++ ")."

/-- `mentions message sub`: `sub` occurs contiguously inside `message`. -/
def mentions (message sub : String) : Prop :=
  sub.data <:+: message.data

instance (message sub : String) : Decidable (mentions message sub) :=
  inferInstanceAs (Decidable (sub.data <:+: message.data))

/-- A string mentions any middle part of a three-way concatenation. -/
theorem mentions_append (a sub b : String) : mentions (a ++ sub ++ b) sub :=
  ⟨a.data, b.data, by simp [String.data_append]⟩

/-- Concrete command used to evaluate `get_command` at its failing inputs. -/
def powerCommand : DeviceCommand := ⟨1, "Power", [0, 1]⟩

/-- Concrete `DeviceInfo` for the sample driver. -/
def sampleInfo : DeviceInfo := ⟨"Living Room TV", "tv-1"⟩

/-- Concrete driver whose command set is `[powerCommand]` (command id 1). -/
def sampleDriver : DeviceDriver :=
  { _device_info := sampleInfo
    get_commands := [powerCommand]
    remote_layout_size := (1, 1)
    remote_layout := [[1]]
    is_device_ready := true }

/-- Concrete pairing state for evaluating the pairing model: no outstanding
token yet, credentials check accepts exactly the PIN 4821. -/
def samplePairingState : PairingState :=
  { pending := []
    finalized := []
    counter := 0
    device_provides_pin := true
    credentials_ok := fun c => c == "4821" }

/-- A token removed by the consuming filter is no longer contained. -/
theorem contains_filter_bne (l : List String) (tok : String) :
    (l.filter (fun t => t != tok)).contains tok = false := by
  induction l with
  | nil => rfl
  | cons x xs ih =>
    by_cases h : x = tok
    · simp [h, ih]
    · simp only [List.filter]
      have hx : (x != tok) = true := bne_iff_ne.mpr h
      simp [hx, List.contains_cons, ih, bne_iff_ne, Ne.symm h]

/-- `get_command` never returns a command and never reaches its
`CommandNotFoundException` raise: the zero-argument `result.count()` call
raises `TypeError` on every driver and every id. -/
theorem get_command_always_raises_type_error (d : DeviceDriver)
    (cmd_id : Int) :
    d.get_command cmd_id =
      Except.error
        (PyError.typeError "count() takes exactly one argument (0 given)") :=
  rfl

/-- C1: the claim says `get_command(cmd_id)` returns the command whose id
equals `cmd_id` whenever `get_commands()` contains one.  On `sampleDriver`
the filter for id 1 yields exactly `[powerCommand]`, yet `get_command 1`
raises `TypeError` from the zero-argument `result.count()` call instead of
returning `powerCommand`, contradicting the method's own docstring
("Returns: The command for the ID."). -/
theorem get_command_present_raises_type_error :
    sampleDriver.get_commands.filter (fun c => c.id == 1) = [powerCommand] ∧
    sampleDriver.get_command 1 =
      Except.error
        (PyError.typeError "count() takes exactly one argument (0 given)") :=
  ⟨rfl, rfl⟩

/-- C2: the claim says `get_command(cmd_id)` raises `CommandNotFoundException`
(and nothing else) when no command has id `cmd_id`.  On `sampleDriver` no
command has id 2, yet `get_command 2` raises `TypeError` from the
zero-argument `result.count()` call, never reaching the
`CommandNotFoundException` raise its docstring promises. -/
theorem get_command_absent_raises_type_error :
    sampleDriver.get_commands.filter (fun c => c.id == 2) = [] ∧
    sampleDriver.get_command 2 =
      Except.error
        (PyError.typeError "count() takes exactly one argument (0 given)") :=
  ⟨rfl, rfl⟩

/-- C3: for every descriptor, `requires_authentication` is true exactly when
`authentication_method` is not `AuthenticationMethod.NONE`; it is a derived
property computed from `authentication_method`, not stored state. -/
theorem requires_authentication_iff_not_none (d : DeviceDriverDescriptor) :
    d.requires_authentication = true ↔
      d.authentication_method ≠ AuthenticationMethod.NONE := by
  simp [DeviceDriverDescriptor.requires_authentication, bne_iff_ne]

/-- C4: a `pairing_request` token returned by `start_pairing` succeeds exactly
once under `finalize_pairing` with correct credentials: the first call
returns `True` and consumes the token; a second call with the same token
deterministically returns `False`. -/
theorem pairing_token_single_use (st : PairingState)
    (device_info : DeviceInfo) (remote_name : String) (credentials : String)
    (hc : st.credentials_ok credentials = true) :
    (finalize_pairing (start_pairing st device_info remote_name).2
        (start_pairing st device_info remote_name).1.1 credentials
        (start_pairing st device_info remote_name).1.2).1 = true ∧
    (finalize_pairing
        (finalize_pairing (start_pairing st device_info remote_name).2
            (start_pairing st device_info remote_name).1.1 credentials
            (start_pairing st device_info remote_name).1.2).2
        (start_pairing st device_info remote_name).1.1 credentials
        (start_pairing st device_info remote_name).1.2).1 = false := by
  constructor
  · simp [start_pairing, finalize_pairing, hc]
  · simp [start_pairing, finalize_pairing, hc, contains_filter_bne]

/-- C4 witness: on `samplePairingState` with PIN 4821, the first
`finalize_pairing` succeeds and the second with the same token fails. -/
theorem pairing_token_single_use_witness :
    samplePairingState.credentials_ok "4821" = true ∧
    ((finalize_pairing
        (start_pairing samplePairingState sampleInfo "LivingRoomRemote").2
        (start_pairing samplePairingState sampleInfo "LivingRoomRemote").1.1
        "4821"
        (start_pairing samplePairingState sampleInfo
          "LivingRoomRemote").1.2).1 = true ∧
     (finalize_pairing
        (finalize_pairing
          (start_pairing samplePairingState sampleInfo "LivingRoomRemote").2
          (start_pairing samplePairingState sampleInfo "LivingRoomRemote").1.1
          "4821"
          (start_pairing samplePairingState sampleInfo
            "LivingRoomRemote").1.2).2
        (start_pairing samplePairingState sampleInfo "LivingRoomRemote").1.1
        "4821"
        (start_pairing samplePairingState sampleInfo
          "LivingRoomRemote").1.2).1 = false) :=
  ⟨rfl, pairing_token_single_use samplePairingState sampleInfo
    "LivingRoomRemote" "4821" rfl⟩

/-- C5: after the hub sets a config path, `get_config_path` returns exactly
that path; both methods are static, so no descriptor instance takes part and
the result is the same for every caller until the next `set_config_path`. -/
theorem get_config_path_after_set (p : String) (st : Option String) :
    get_config_path (set_config_path p st) = some p := rfl

/-- C6: a `DeviceDriver` constructed with a `DeviceInfo` delegates `name` and
`device_id` to that `DeviceInfo`, whatever its abstract members are; the
stored `_device_info` is never reassigned, so this holds for the whole
lifetime of the driver. -/
theorem device_driver_identity_delegates (info : DeviceInfo)
    (cmds : List DeviceCommand) (size : Int × Int)
    (layout : List (List Int)) (ready : Bool) :
    (DeviceDriver.mk info cmds size layout ready).name = info.name ∧
    (DeviceDriver.mk info cmds size layout ready).device_id =
      info.device_id :=
  ⟨rfl, rfl⟩

/-- C7: the accessors of a `DeviceCommand` constructed from
`(cmd_id, title, icon)` return exactly those values; the structure is
immutable and no operation of the contract rewrites the stored fields. -/
theorem device_command_accessors (cmd_id : Int) (title : String)
    (icon : List Nat) :
    (DeviceCommand.mk cmd_id title icon).id = cmd_id ∧
    (DeviceCommand.mk cmd_id title icon).title = title ∧
    (DeviceCommand.mk cmd_id title icon).icon = icon :=
  ⟨rfl, rfl, rfl⟩

set_option maxRecDepth 8192 in
/-- C8 counterexample: in the flat `__init__.py` variant the constructor
receives only the driver's name, so with the driver argument given the
message of `DeviceCommandException` does not mention the driver's id:
for the command (id 7, title Play) and `sampleDriver` (name Living Room TV,
device id tv-1) the built message never contains the substring tv-1. -/
theorem device_command_exception_flat_omits_driver_id :
    ¬ mentions
        (DeviceCommandException_message_flat (DeviceCommand.mk 7 "Play" [])
          (some (DeviceDriver.name sampleDriver)))
        (DeviceDriver.device_id sampleDriver) := by
  decide

/-- C8 (amended): every `DeviceCommandException` message mentions the
command's title and id; when a driver argument is given, the
`exceptions.py` variant (which receives the `DeviceDriver`) additionally
mentions the driver's name and device id, while the flat `__init__.py`
variant (which receives only a driver name) additionally mentions just that
name. -/
theorem device_command_exception_message_mentions (command : DeviceCommand)
    (d : DeviceDriver) (n : String) (hn : n ≠ "") :
    mentions (DeviceCommandException_message command none) command.title ∧
    mentions (DeviceCommandException_message command none)
      (toString command.id) ∧
    mentions (DeviceCommandException_message command (some d))
      command.title ∧
    mentions (DeviceCommandException_message command (some d))
      (toString command.id) ∧
    mentions (DeviceCommandException_message command (some d)) d.name ∧
    mentions (DeviceCommandException_message command (some d)) d.device_id ∧
    mentions (DeviceCommandException_message_flat command (some n))
      command.title ∧
    mentions (DeviceCommandException_message_flat command (some n))
      (toString command.id) ∧
    mentions (DeviceCommandException_message_flat command (some n)) n := by
  have hbne : (n != "") = true := bne_iff_ne.mpr hn
  refine ⟨?_, ?_, ?_, ?_, ?_, ?_, ?_, ?_, ?_⟩
  · simpa [DeviceCommandException_message, String.append_assoc] using
      mentions_append "Error while executing the command '" command.title
        ("' (id = " ++ toString command.id ++ ").")
  · simpa [DeviceCommandException_message, String.append_assoc] using
      mentions_append
        ("Error while executing the command '" ++ command.title ++ "' (id = ")
        (toString command.id) ")."
  · simpa [DeviceCommandException_message, String.append_assoc] using
      mentions_append "Error while executing the command '" command.title
        ("' (id = " ++ toString command.id ++ ") for device '" ++ d.name
          ++ "' (id = " ++ d.device_id ++ ").")
  · simpa [DeviceCommandException_message, String.append_assoc] using
      mentions_append
        ("Error while executing the command '" ++ command.title ++ "' (id = ")
        (toString command.id)
        (") for device '" ++ d.name ++ "' (id = " ++ d.device_id ++ ").")
  · simpa [DeviceCommandException_message, String.append_assoc] using
      mentions_append
        ("Error while executing the command '" ++ command.title ++ "' (id = "
          ++ toString command.id ++ ") for device '")
        d.name ("' (id = " ++ d.device_id ++ ").")
  · simpa [DeviceCommandException_message, String.append_assoc] using
      mentions_append
        ("Error while executing the command '" ++ command.title ++ "' (id = "
          ++ toString command.id ++ ") for device '" ++ d.name ++ "' (id = ")
        d.device_id ")."
  · simpa [DeviceCommandException_message_flat, hbne, String.append_assoc]
      using
      mentions_append "Error while executing the command '" command.title
        ("' (id = " ++ toString command.id ++ ") for device '" ++ n ++ "'.")
  · simpa [DeviceCommandException_message_flat, hbne, String.append_assoc]
      using
      mentions_append
        ("Error while executing the command '" ++ command.title ++ "' (id = ")
        (toString command.id) (") for device '" ++ n ++ "'.")
  · simpa [DeviceCommandException_message_flat, hbne, String.append_assoc]
      using
      mentions_append
        ("Error while executing the command '" ++ command.title ++ "' (id = "
          ++ toString command.id ++ ") for device '")
        n "'."

/-- C8 witness: the amended theorem evaluated on `powerCommand`,
`sampleDriver` and the nonempty driver name Living Room TV. -/
theorem device_command_exception_message_mentions_witness :
    ("Living Room TV" : String) ≠ "" ∧
    (mentions (DeviceCommandException_message powerCommand none)
      powerCommand.title ∧
    mentions (DeviceCommandException_message powerCommand none)
      (toString powerCommand.id) ∧
    mentions (DeviceCommandException_message powerCommand (some sampleDriver))
      powerCommand.title ∧
    mentions (DeviceCommandException_message powerCommand (some sampleDriver))
      (toString powerCommand.id) ∧
    mentions (DeviceCommandException_message powerCommand (some sampleDriver))
      sampleDriver.name ∧
    mentions (DeviceCommandException_message powerCommand (some sampleDriver))
      sampleDriver.device_id ∧
    mentions
      (DeviceCommandException_message_flat powerCommand
        (some "Living Room TV")) powerCommand.title ∧
    mentions
      (DeviceCommandException_message_flat powerCommand
        (some "Living Room TV")) (toString powerCommand.id) ∧
    mentions
      (DeviceCommandException_message_flat powerCommand
        (some "Living Room TV")) "Living Room TV") :=
  ⟨by decide,
   device_command_exception_message_mentions powerCommand sampleDriver
     "Living Room TV" (by decide)⟩

/-- C9: before any `set_config_path` call, `get_config_path` returns the
absent value `None` rather than failing, and a later `set_config_path`
overwrites the single class-level value for all descriptors: the last write
wins. -/
theorem config_path_unset_none_and_last_write_wins :
    get_config_path initial_config_path = none ∧
    ∀ (p1 p2 : String) (st : Option String),
      get_config_path (set_config_path p2 (set_config_path p1 st)) =
        some p2 :=
  ⟨rfl, fun _ _ _ => rfl⟩

/-- C10: the string representation of a `DeviceDriverException` equals
exactly the message it was constructed with, for every optional cause of any
type; the stored cause never affects the string representation. -/
theorem device_driver_exception_str_is_message (ε : Type) (message : String)
    (cause : Option ε) :
    DeviceDriverException.__str__ (DeviceDriverException.mk message cause) =
      message ∧
    ∀ other : Option ε,
      DeviceDriverException.__str__
          (DeviceDriverException.mk message cause) =
        DeviceDriverException.__str__ (DeviceDriverException.mk message other) :=
  ⟨rfl, fun _ => rfl⟩

end PiControlHub
